import Mathlib

/-!
Verification of the workout-tracker backend (`backend/server.py`): the durable
store, the streak engine, the ledger mutator (mark / unmark), registration and
the leaderboard ranker, shallowly embedded in Lean.

Modelling conventions:
* Calendar dates are `Int` days (an affine day count).  The Python code stores
  dates as ISO `YYYY-MM-DD` strings and sorts/compares them as strings; for
  actual dates, ISO-string comparison coincides with chronological comparison,
  so comparing the `Int` day values is the faithful translation.
* `datetime.now().date()` (the clock) is passed in as an explicit `today`
  parameter, and `datetime.now()` at registration as `now`.
* `list.sort(key=..., reverse=True)` is Python's stable descending sort; the
  output of a stable sort with a fixed comparator is unique, and
  `List.insertionSort` with the corresponding non-strict "greater or equal by
  key" relation produces exactly that output (it inserts each earlier element
  in front of later elements with an equal key).
* HTTP 400 `HTTPException`s are modelled by an `error` outcome carrying the
  `detail` string from the source; handlers that raise before saving return
  the store unchanged.
* `str.isdigit` is modelled for the ASCII pins this system stores (Unicode
  digit categories accepted by CPython beyond ASCII are out of scope).
-/

namespace WorkoutApp

/-- An activity record, mirroring the dict `{'user_id', 'date', 'workout_done'}`
persisted in `workouts.json`. -/
structure Workout where
  user_id : Nat
  date : Int
  workout_done : Bool
deriving DecidableEq, Repr

/-- A user record, mirroring the dict `{'user_id', 'name', 'pin', 'created_at'}`
persisted in `users.json` (`created_at` is an opaque timestamp). -/
structure User where
  user_id : Nat
  name : String
  pin : String
  created_at : Nat
deriving DecidableEq, Repr

/-- Relation used for the descending-by-date sort of a user's workouts:
`a` may come before `b` when `a.date ≥ b.date`. -/
def dateGe (a b : Workout) : Prop := b.date ≤ a.date

instance : DecidableRel dateGe := fun a b => inferInstanceAs (Decidable (b.date ≤ a.date))

instance : IsTotal Workout dateGe := ⟨fun a b => le_total b.date a.date⟩

instance : IsTrans Workout dateGe := ⟨fun _ _ _ h1 h2 => le_trans h2 h1⟩

/-- The walk of `calculate_streak` over the date-descending workout list,
translated branch for branch from the `for workout in user_workouts:` loop
(lines 132–146 of `server.py`). -/
def streakWalk : List Workout → Nat → Int → Nat
  | [], streak, _ => streak
  | w :: rest, streak, expected =>
    if w.date = expected then
      streakWalk rest (streak + 1) (expected - 1)
    else if w.date = expected + 1 then
      -- comment in the source: "Allow checking yesterday as part of streak
      -- (if today isn't marked yet)"
      streakWalk rest streak expected
    else if expected < w.date then
      streakWalk rest streak expected
    else
      streak

/-- The filter `[w for w in workouts if w['user_id'] == user_id and w['workout_done']]`
shared by `calculate_streak`, the dashboard, the leaderboard and both mutators. -/
def userWorkouts (user_id : Nat) (workouts : List Workout) : List Workout :=
  workouts.filter fun w => decide (w.user_id = user_id) && w.workout_done

/-- `calculate_streak(user_id, workouts)` from `server.py`, with the clock
passed as `today`: filter to the user's done records, return 0 on empty,
sort by date descending, then walk with `streakWalk`. -/
def calculate_streak (user_id : Nat) (workouts : List Workout) (today : Int) : Nat :=
  let user_workouts := userWorkouts user_id workouts
  if user_workouts.isEmpty then 0
  else streakWalk (user_workouts.insertionSort dateGe) 0 today

/-- The walk of the specification's §4.3 reference algorithm, following the
spec's words: the `expected + 1 day` tolerance step applies only while
`count == 0` (first record examined); any other `date > expected` is skipped;
a smaller date stops the walk. -/
def streakWalkSpec : List Workout → Nat → Int → Nat
  | [], count, _ => count
  | w :: rest, count, expected =>
    if w.date = expected then
      streakWalkSpec rest (count + 1) (expected - 1)
    else if w.date = expected + 1 ∧ count = 0 then
      streakWalkSpec rest count expected
    else if expected < w.date then
      streakWalkSpec rest count expected
    else
      count

/-- The specification's §4.3 reference algorithm `streak(user_id, records, today)`,
assembled from the spec's steps 1–6 (same filter, empty check and
date-descending sort, then the spec's walk). -/
def streakSpec (user_id : Nat) (records : List Workout) (today : Int) : Nat :=
  let filtered := userWorkouts user_id records
  if filtered.isEmpty then 0
  else streakWalkSpec (filtered.insertionSort dateGe) 0 today

/-- Body of the `MarkWorkoutResponse` pydantic model returned by the mark and
unmark handlers. -/
structure MarkWorkoutResponse where
  success : Bool
  message : String
  streak : Nat
  total_days : Nat
deriving DecidableEq, Repr

/-- Outcome of a mark/unmark request after session resolution: either an
HTTP 400 `HTTPException` carrying its `detail` string, or a
`MarkWorkoutResponse`. -/
inductive MarkOutcome where
  | error (detail : String)
  | ok (resp : MarkWorkoutResponse)
deriving DecidableEq, Repr

/-- The expression `len([w for w in workouts if w['user_id'] == user_id and
w['workout_done']])` recomputed by both mutators and the leaderboard. -/
def total_days (user_id : Nat) (workouts : List Workout) : Nat :=
  (userWorkouts user_id workouts).length

/-- The `already_marked` membership test of `mark_workout` (line 352 of
`server.py`). -/
def alreadyMarked (user_id : Nat) (target_date : Int) (workouts : List Workout) : Bool :=
  workouts.any fun w =>
    decide (w.user_id = user_id) && decide (w.date = target_date) && w.workout_done

/-- Message of the idempotent no-op branch of `mark_workout`. -/
def alreadyMarkedMessage (target_date : Int) : String :=
  s!"Workout already marked for {target_date}"

/-- Success message of `mark_workout` (the source labels the current day as
"today" and any earlier day by its date string). -/
def markedMessage (target_date today : Int) : String :=
  if target_date = today then "Workout marked for today!"
  else s!"Workout marked for {target_date}!"

/-- Success message of `unmark_workout`. -/
def removedMessage (target_date : Int) : String :=
  s!"Workout removed for {target_date}!"

/-- The `mark_workout` handler after session resolution and date parsing, with
the clock passed as `today`; the second component is the stored workout
collection after the call (unchanged when the handler raises or no-ops, the
saved collection otherwise). -/
def mark_workout (user_id : Nat) (target_date : Int) (today : Int)
    (workouts : List Workout) : MarkOutcome × List Workout :=
  if today < target_date then
    (MarkOutcome.error ("Cannot mark workouts for future dates"), workouts)
  else if alreadyMarked user_id target_date workouts then
    (MarkOutcome.ok
      { success := false
        message := alreadyMarkedMessage target_date
        streak := calculate_streak user_id workouts today
        total_days := total_days user_id workouts }, workouts)
  else
    let new_workout : Workout :=
      { user_id := user_id, date := target_date, workout_done := true }
    let appended := workouts ++ [new_workout]
    (MarkOutcome.ok
      { success := true
        message := markedMessage target_date today
        streak := calculate_streak user_id appended today
        total_days := total_days user_id appended }, appended)

/-- The filter `[w for w in workouts if not (w['user_id'] == user_id and
w['date'] == req.date)]` of `unmark_workout` (line 401 of `server.py`). -/
def removeWorkout (user_id : Nat) (target_date : Int) (workouts : List Workout) : List Workout :=
  workouts.filter fun w => !(decide (w.user_id = user_id) && decide (w.date = target_date))

/-- The `unmark_workout` handler after session resolution, with the clock passed
as `today`; `dateOpt` is the optional `req.date`.  In the not-found branch the
handler computes streak/total on its (removal-free) filtered local list but does
not save, so the stored collection stays the input; in the removal branch the
filtered list is saved and returned. -/
def unmark_workout (user_id : Nat) (dateOpt : Option Int) (today : Int)
    (stored : List Workout) : MarkOutcome × List Workout :=
  match dateOpt with
  | none => (MarkOutcome.error ("Date is required to unmark"), stored)
  | some target_date =>
    let filtered := removeWorkout user_id target_date stored
    if filtered.length = stored.length then
      (MarkOutcome.ok
        { success := false
          message := "No workout found for this date"
          streak := calculate_streak user_id filtered today
          total_days := total_days user_id filtered }, stored)
    else
      (MarkOutcome.ok
        { success := true
          message := removedMessage target_date
          streak := calculate_streak user_id filtered today
          total_days := total_days user_id filtered }, filtered)

/-- The uniqueness invariant of §3: at most one record per `(user_id, date)`
pair. -/
def UniquePairs (ws : List Workout) : Prop :=
  ws.Pairwise fun a b => ¬(a.user_id = b.user_id ∧ a.date = b.date)

/-- Every stored record has `workout_done = true` (records are only ever
created by `mark_workout` with `'workout_done': True`). -/
def AllDone (ws : List Workout) : Prop := ∀ w ∈ ws, w.workout_done = true

/-- The persistent state as a whole: the contents of `users.json` and
`workouts.json`. -/
structure Store where
  users : List User
  workouts : List Workout
deriving DecidableEq, Repr

/-- The mark handler at store level: the source reads and saves only
`workouts.json` (`read_workouts`/`save_workouts`); `users.json` is never
touched by this handler. -/
def markStore (user_id : Nat) (target_date today : Int) (s : Store) : MarkOutcome × Store :=
  let r := mark_workout user_id target_date today s.workouts
  (r.1, { users := s.users, workouts := r.2 })

/-- The unmark handler at store level: likewise only `workouts.json` is read
and saved. -/
def unmarkStore (user_id : Nat) (dateOpt : Option Int) (today : Int) (s : Store) :
    MarkOutcome × Store :=
  let r := unmark_workout user_id dateOpt today s.workouts
  (r.1, { users := s.users, workouts := r.2 })

/-- Outcome of a registration request: an HTTP 400 `HTTPException` detail or
the success payload (the cookie/session side effects are out of scope). -/
inductive RegisterOutcome where
  | error (detail : String)
  | ok (name : String)
deriving DecidableEq, Repr

/-- A character CPython's `str.isdigit` accepts: any character of the Unicode
digit categories (Numeric_Type Decimal or Digit), not only ASCII `0`-`9`.
Modelled exactly on the ASCII range and on the Unicode digit blocks listed
below (Latin-1 superscripts 1-3, Arabic-Indic, extended Arabic-Indic,
Devanagari, the superscript and subscript blocks, fullwidth digits); CPython
accepts further digit blocks that are not listed here, so the C8 theorem is
phrased to assert nothing about characters outside ASCII and this table. -/
def pyDigitChar (c : Char) : Bool :=
  decide (0x30 ≤ c.toNat ∧ c.toNat ≤ 0x39) ||
  decide (c.toNat = 0xB2) || decide (c.toNat = 0xB3) || decide (c.toNat = 0xB9) ||
  decide (0x660 ≤ c.toNat ∧ c.toNat ≤ 0x669) ||
  decide (0x6F0 ≤ c.toNat ∧ c.toNat ≤ 0x6F9) ||
  decide (0x966 ≤ c.toNat ∧ c.toNat ≤ 0x96F) ||
  decide (c.toNat = 0x2070) ||
  decide (0x2074 ≤ c.toNat ∧ c.toNat ≤ 0x2079) ||
  decide (0x2080 ≤ c.toNat ∧ c.toNat ≤ 0x2089) ||
  decide (0xFF10 ≤ c.toNat ∧ c.toNat ≤ 0xFF19)

/-- Python's `str.isdigit`: nonempty and every character a Unicode digit (see
`pyDigitChar` for the modelled character table). -/
def isdigit (s : String) : Bool := !s.isEmpty && s.toList.all pyDigitChar

/-- The `new_user_id = 1 if not users else max(u['user_id'] for u in users) + 1`
expression of `register` (ids are naturals, so the fold from 0 computes the
maximum of a nonempty list). -/
def nextUserId (users : List User) : Nat :=
  if users.isEmpty then 1 else (users.map User.user_id).foldl Nat.max 0 + 1

/-- The `register` handler after request parsing, with the clock passed as
`now`; the second component is the stored users collection after the call.
The source checks the name conflict first (line 155) and the PIN shape second
(line 159). -/
def register (name pin : String) (now : Nat) (users : List User) :
    RegisterOutcome × List User :=
  if users.any fun u => decide (u.name = name) then
    (RegisterOutcome.error ("User already exists"), users)
  else if pin.length ≠ 4 ∨ isdigit pin = false then
    (RegisterOutcome.error ("PIN must be exactly 4 digits"), users)
  else
    let new_user : User :=
      { user_id := nextUserId users, name := name, pin := pin, created_at := now }
    (RegisterOutcome.ok name, users ++ [new_user])

/-- State of a JSON backing file as the readers observe it: absent, present but
zero-size, present but not valid JSON, or well formed with parsed contents. -/
inductive FileState (α : Type) where
  | missing : FileState α
  | empty : FileState α
  | malformed : FileState α
  | wellFormed (records : List α) : FileState α

/-- `read_users` from `server.py`: the `os.path.exists`/`getsize > 0` guard and
the `except (json.JSONDecodeError, FileNotFoundError): pass` handler all fall
through to `return []`; only a parsable nonempty file yields its contents. -/
def read_users : FileState User → List User
  | FileState.missing => []
  | FileState.empty => []
  | FileState.malformed => []
  | FileState.wellFormed records => records

/-- `read_workouts` from `server.py`, identical in structure to `read_users`. -/
def read_workouts : FileState Workout → List Workout
  | FileState.missing => []
  | FileState.empty => []
  | FileState.malformed => []
  | FileState.wellFormed records => records

/-- A leaderboard row as built by the `for user in users:` loop of
`get_leaderboard`, before ranks are assigned (`user_id` is deleted from the
response afterwards). -/
structure LeaderboardRow where
  user_id : Nat
  name : String
  current_streak : Nat
  total_workout_days : Nat
  is_current_user : Bool
deriving DecidableEq, Repr

/-- An entry of the final leaderboard response (the `LeaderboardEntry`
pydantic model). -/
structure LeaderboardEntry where
  rank : Nat
  name : String
  current_streak : Nat
  total_workout_days : Nat
  is_current_user : Bool
deriving DecidableEq, Repr

/-- Sort key of a leaderboard row: the tuple
`(x['current_streak'], x['total_workout_days'])`. -/
def rowKey (r : LeaderboardRow) : Nat × Nat := (r.current_streak, r.total_workout_days)

/-- Sort key of a final leaderboard entry. -/
def entryKey (e : LeaderboardEntry) : Nat × Nat := (e.current_streak, e.total_workout_days)

/-- Lexicographic "greater or equal" on sort keys: descending by streak, then
descending by total. -/
def keyGe (p q : Nat × Nat) : Prop := q.1 < p.1 ∨ (p.1 = q.1 ∧ q.2 ≤ p.2)

/-- Comparison underlying Python's stable
`leaderboard.sort(key=lambda x: (streak, total), reverse=True)`: row `a` may
precede row `b` when its key is lexicographically ≥. -/
def rowGe (a b : LeaderboardRow) : Prop := keyGe (rowKey a) (rowKey b)

instance : DecidableRel keyGe := fun p q =>
  inferInstanceAs (Decidable (q.1 < p.1 ∨ (p.1 = q.1 ∧ q.2 ≤ p.2)))

instance : DecidableRel rowGe := fun a b =>
  inferInstanceAs (Decidable (keyGe (rowKey a) (rowKey b)))

instance : IsTotal LeaderboardRow rowGe :=
  ⟨fun a b => by simp only [rowGe, keyGe, rowKey]; omega⟩

instance : IsTrans LeaderboardRow rowGe :=
  ⟨fun a b c hab hbc => by simp only [rowGe, keyGe, rowKey] at *; omega⟩

/-- The response fields of a leaderboard row other than the internal user id. -/
def rowData (r : LeaderboardRow) : String × Nat × Nat × Bool :=
  (r.name, r.current_streak, r.total_workout_days, r.is_current_user)

/-- The response fields of a final leaderboard entry other than its rank. -/
def entryData (e : LeaderboardEntry) : String × Nat × Nat × Bool :=
  (e.name, e.current_streak, e.total_workout_days, e.is_current_user)

/-- The rows built by the leaderboard loop (lines 290–310 of `server.py`): one
row per user whose streak or total is positive, in `users` order, with stats
recomputed from the workout collection. -/
def leaderboardRows (current_user_id : Nat) (users : List User)
    (workouts : List Workout) (today : Int) : List LeaderboardRow :=
  users.filterMap fun user =>
    let s := calculate_streak user.user_id workouts today
    let t := total_days user.user_id workouts
    if 0 < s ∨ 0 < t then
      some { user_id := user.user_id
             name := user.name
             current_streak := s
             total_workout_days := t
             is_current_user := decide (user.user_id = current_user_id) }
    else none

/-- The `for idx, entry in enumerate(leaderboard, 1):` pass of
`get_leaderboard` that assigns ranks by sorted position and drops `user_id`. -/
def addRanks : Nat → List LeaderboardRow → List LeaderboardEntry
  | _, [] => []
  | i, r :: rest =>
    { rank := i
      name := r.name
      current_streak := r.current_streak
      total_workout_days := r.total_workout_days
      is_current_user := r.is_current_user } :: addRanks (i + 1) rest

/-- `get_leaderboard` after session resolution: build the filtered rows, sort
them stably by `(streak, total)` descending, then assign ranks `1..N`. -/
def get_leaderboard (current_user_id : Nat) (users : List User)
    (workouts : List Workout) (today : Int) : List LeaderboardEntry :=
  addRanks 1 ((leaderboardRows current_user_id users workouts today).insertionSort rowGe)

/-- The two walks agree on every list, every accumulator and every expected
date: when `count ≠ 0` the spec routes a `date = expected + 1` record through
its `date > expected` skip branch, with the same effect as the code's
unconditional skip. -/
theorem streakWalk_eq_spec (ws : List Workout) :
    ∀ streak expected, streakWalk ws streak expected = streakWalkSpec ws streak expected := by
  induction ws with
  | nil => intro streak expected; rfl
  | cons w rest ih =>
    intro streak expected
    simp only [streakWalk, streakWalkSpec]
    split_ifs <;> first | exact ih _ _ | rfl | (exfalso; omega)

/-- The walk adds at most one to its accumulator per record examined. -/
theorem streakWalk_le (ws : List Workout) :
    ∀ streak expected, streakWalk ws streak expected ≤ streak + ws.length := by
  induction ws with
  | nil => intro streak expected; simp [streakWalk]
  | cons w rest ih =>
    intro streak expected
    simp only [streakWalk, List.length_cons]
    split_ifs <;> first | (exact le_trans (ih _ _) (by omega)) | omega

/-- A streak never exceeds the user's total count of done records: the walk
increments at most once per element of the filtered list.  (This is why the
spec's illustrative leaderboard stats `streak = 5, total = 3` cannot arise
from any workout collection.) -/
theorem calculate_streak_le_total (u : Nat) (ws : List Workout) (today : Int) :
    calculate_streak u ws today ≤ total_days u ws := by
  rw [calculate_streak, total_days]
  split_ifs with h
  · omega
  · have hlen : ((userWorkouts u ws).insertionSort dateGe).length = (userWorkouts u ws).length :=
      (List.perm_insertionSort dateGe (userWorkouts u ws)).length_eq
    have := streakWalk_le ((userWorkouts u ws).insertionSort dateGe) 0 today
    omega

/-- C1: `calculate_streak` returns exactly the result of the §4.3 reference
algorithm on every user id, record list and value of `today`; in particular the
streak of an empty record list is 0, a lone record three days old gives 0,
records on `d - 1` and `d` give 2, and records on `d - 2` and `d` give 1. -/
theorem calculate_streak_matches_spec :
    (∀ u ws today, calculate_streak u ws today = streakSpec u ws today) ∧
    (∀ u today, calculate_streak u [] today = 0) ∧
    (∀ u d, calculate_streak u [⟨u, d - 3, true⟩] d = 0) ∧
    (∀ u d, calculate_streak u [⟨u, d, true⟩, ⟨u, d - 1, true⟩] d = 2) ∧
    (∀ u d, calculate_streak u [⟨u, d, true⟩, ⟨u, d - 2, true⟩] d = 1) := by
  refine ⟨fun u ws today => ?_, fun u today => rfl, fun u d => ?_, fun u d => ?_, fun u d => ?_⟩
  · unfold calculate_streak streakSpec
    simp only [streakWalk_eq_spec]
  all_goals
    simp [calculate_streak, userWorkouts, List.insertionSort, List.orderedInsert,
      streakWalk, dateGe]

/-- C2: on the code as written, a user whose only done record is dated exactly
one day before `today` gets streak 0, not 1: the tolerance branch compares the
record date against `expected + 1 day`, which a record on `today - 1` can never
equal, so the walk stops at the gap immediately.  (The branch's own comment
says it should "allow checking yesterday as part of streak".)  The claim's
other half does hold: a sole record two or more days old also gives 0. -/
theorem calculate_streak_yesterday_is_zero :
    ∀ u d, calculate_streak u [⟨u, d - 1, true⟩] d = 0 := by
  intro u d
  simp [calculate_streak, userWorkouts, List.insertionSort, List.orderedInsert,
    streakWalk, dateGe]

/-- C3: marking is idempotent.  For a valid (non-future) date with no done
record yet stored for `(u, d)`: the first call applies (`success = true`), the
second call is refused with the "already marked" message, the stored collection
after the second call equals the collection after the first, and the streak and
total of the two responses coincide. -/
theorem mark_idempotent (u : Nat) (d today : Int) (ws : List Workout)
    (hv : d ≤ today)
    (hfresh : ∀ w ∈ ws, ¬(w.user_id = u ∧ w.date = d ∧ w.workout_done = true)) :
    ∃ r1 ws1 r2,
      mark_workout u d today ws = (MarkOutcome.ok r1, ws1) ∧
      mark_workout u d today ws1 = (MarkOutcome.ok r2, ws1) ∧
      r1.success = true ∧ r2.success = false ∧
      r2.message = alreadyMarkedMessage d ∧
      r1.streak = r2.streak ∧ r1.total_days = r2.total_days := by
  have hfut : ¬ today < d := not_lt.2 hv
  have h1 : alreadyMarked u d ws = false := by
    rw [Bool.eq_false_iff]
    intro hmem
    rw [alreadyMarked, List.any_eq_true] at hmem
    obtain ⟨w, hw, hcond⟩ := hmem
    simp only [Bool.and_eq_true, decide_eq_true_eq] at hcond
    exact hfresh w hw ⟨hcond.1.1, hcond.1.2, hcond.2⟩
  have h2 : alreadyMarked u d (ws ++ [{ user_id := u, date := d, workout_done := true }]) = true := by
    rw [alreadyMarked, List.any_eq_true]
    exact ⟨{ user_id := u, date := d, workout_done := true }, by simp, by simp⟩
  refine ⟨{ success := true
            message := markedMessage d today
            streak := calculate_streak u (ws ++ [{ user_id := u, date := d, workout_done := true }]) today
            total_days := total_days u (ws ++ [{ user_id := u, date := d, workout_done := true }]) },
          ws ++ [{ user_id := u, date := d, workout_done := true }],
          { success := false
            message := alreadyMarkedMessage d
            streak := calculate_streak u (ws ++ [{ user_id := u, date := d, workout_done := true }]) today
            total_days := total_days u (ws ++ [{ user_id := u, date := d, workout_done := true }]) },
          ?_, ?_, rfl, rfl, rfl, rfl, rfl⟩
  · simp [mark_workout, hfut, h1]
  · simp [mark_workout, hfut, h2]

/-- Witness for C3 at `u = 1`, `d = 0`, `today = 0` on the empty collection. -/
theorem mark_idempotent_witness :
    ∃ r1 ws1 r2,
      mark_workout 1 0 0 [] = (MarkOutcome.ok r1, ws1) ∧
      mark_workout 1 0 0 ws1 = (MarkOutcome.ok r2, ws1) ∧
      r1.success = true ∧ r2.success = false ∧
      r2.message = alreadyMarkedMessage 0 ∧
      r1.streak = r2.streak ∧ r1.total_days = r2.total_days :=
  mark_idempotent 1 0 0 [] (le_refl 0) (by simp)

/-- C5: a strictly future target date is rejected with the future-date
validation detail, no record is created (the stored collection is returned
unchanged), and in particular the user's total of done records is unchanged. -/
theorem mark_future_rejected (u : Nat) (d today : Int) (ws : List Workout)
    (h : today < d) :
    mark_workout u d today ws = (MarkOutcome.error ("Cannot mark workouts for future dates"), ws) ∧
    (mark_workout u d today ws).2 = ws ∧
    total_days u (mark_workout u d today ws).2 = total_days u ws := by
  rw [mark_workout, if_pos h]
  exact ⟨rfl, rfl, rfl⟩

/-- Witness for C5: marking tomorrow (`d = 1`) with `today = 0`. -/
theorem mark_future_rejected_witness :
    mark_workout 1 1 0 [] = (MarkOutcome.error ("Cannot mark workouts for future dates"), []) ∧
    (mark_workout 1 1 0 []).2 = [] ∧
    total_days 1 (mark_workout 1 1 0 []).2 = total_days 1 [] :=
  mark_future_rejected 1 1 0 [] (by norm_num)

/-- C6: unmark error behaviour.  A missing `target_date` fails with the
required-date error and no change; with a date present and no matching stored
record the handler answers `success = false`, "not found", with the stored
collection, streak and total unchanged; otherwise it removes every matching
record, stores the filtered collection and answers `success = true` with the
recomputed streak and total. -/
theorem unmark_behaviour (u : Nat) (today : Int) (ws : List Workout) :
    (unmark_workout u none today ws = (MarkOutcome.error ("Date is required to unmark"), ws)) ∧
    (∀ d, (∀ w ∈ ws, ¬(w.user_id = u ∧ w.date = d)) →
      unmark_workout u (some d) today ws =
        (MarkOutcome.ok
          { success := false
            message := "No workout found for this date"
            streak := calculate_streak u ws today
            total_days := total_days u ws }, ws)) ∧
    (∀ d, (∃ w ∈ ws, w.user_id = u ∧ w.date = d) →
      unmark_workout u (some d) today ws =
        (MarkOutcome.ok
          { success := true
            message := removedMessage d
            streak := calculate_streak u (removeWorkout u d ws) today
            total_days := total_days u (removeWorkout u d ws) }, removeWorkout u d ws)) := by
  refine ⟨rfl, ?_, ?_⟩
  · intro d hnone
    have hsame : removeWorkout u d ws = ws := by
      apply List.filter_eq_self.2
      intro w hw
      have := hnone w hw
      simp only [Bool.not_eq_eq_eq_not, Bool.not_true, Bool.and_eq_false_iff,
        decide_eq_false_iff_not]
      tauto
    simp [unmark_workout, hsame]
  · intro d hsome
    have hlt : (removeWorkout u d ws).length < ws.length := by
      apply List.length_filter_lt_length_iff_exists.mpr
      obtain ⟨w, hw, h1, h2⟩ := hsome
      exact ⟨w, hw, by simp [h1, h2]⟩
    have hne : ¬ (removeWorkout u d ws).length = ws.length := by omega
    simp [unmark_workout, hne]

/-- Witness for C6 at `u = 1`, `today = 0` on a collection holding one record
on day 5: a missing date errors, day 6 is not found, day 5 is removed. -/
theorem unmark_behaviour_witness :
    (unmark_workout 1 none 0 [{ user_id := 1, date := 5, workout_done := true }] =
      (MarkOutcome.error ("Date is required to unmark"),
       [{ user_id := 1, date := 5, workout_done := true }])) ∧
    (unmark_workout 1 (some 6) 0 [{ user_id := 1, date := 5, workout_done := true }] =
      (MarkOutcome.ok
        { success := false
          message := "No workout found for this date"
          streak := calculate_streak 1 [{ user_id := 1, date := 5, workout_done := true }] 0
          total_days := total_days 1 [{ user_id := 1, date := 5, workout_done := true }] },
       [{ user_id := 1, date := 5, workout_done := true }])) ∧
    (unmark_workout 1 (some 5) 0 [{ user_id := 1, date := 5, workout_done := true }] =
      (MarkOutcome.ok
        { success := true
          message := removedMessage 5
          streak := calculate_streak 1 (removeWorkout 1 5 [{ user_id := 1, date := 5, workout_done := true }]) 0
          total_days := total_days 1 (removeWorkout 1 5 [{ user_id := 1, date := 5, workout_done := true }]) },
       removeWorkout 1 5 [{ user_id := 1, date := 5, workout_done := true }])) :=
  ⟨(unmark_behaviour 1 0 [{ user_id := 1, date := 5, workout_done := true }]).1,
   (unmark_behaviour 1 0 [{ user_id := 1, date := 5, workout_done := true }]).2.1 6 (by decide),
   (unmark_behaviour 1 0 [{ user_id := 1, date := 5, workout_done := true }]).2.2 5 (by decide)⟩

/-- C4: both mutators preserve the §3 invariant.  Starting from a collection in
which every record is done and no `(user_id, date)` pair repeats, any mark (for
any target date) and any unmark (for any optional date) leaves a collection
with the same two properties: the error and no-op branches change nothing, a
successful mark appends a pair that the `already_marked` check proved absent,
and a successful unmark stores a sublist. -/
theorem mutators_preserve_invariant (u : Nat) (today : Int) (ws : List Workout)
    (hdone : AllDone ws) (huniq : UniquePairs ws) :
    (∀ d, AllDone (mark_workout u d today ws).2 ∧ UniquePairs (mark_workout u d today ws).2) ∧
    (∀ dOpt, AllDone (unmark_workout u dOpt today ws).2 ∧
      UniquePairs (unmark_workout u dOpt today ws).2) := by
  constructor
  · intro d
    rw [mark_workout]
    split_ifs with h1 h2
    · exact ⟨hdone, huniq⟩
    · exact ⟨hdone, huniq⟩
    · constructor
      · intro w hw
        rcases List.mem_append.1 hw with h | h
        · exact hdone w h
        · rw [List.mem_singleton] at h
          rw [h]
      · rw [UniquePairs, List.pairwise_append]
        refine ⟨huniq, by simp, ?_⟩
        intro a ha b hb
        rw [List.mem_singleton] at hb
        subst hb
        intro hcontra
        apply h2
        rw [alreadyMarked, List.any_eq_true]
        exact ⟨a, ha, by simp [hcontra.1, hcontra.2, hdone a ha]⟩
  · intro dOpt
    cases dOpt with
    | none => exact ⟨hdone, huniq⟩
    | some d =>
      rw [unmark_workout]
      split_ifs with h
      · exact ⟨hdone, huniq⟩
      · constructor
        · intro w hw
          exact hdone w (List.mem_of_mem_filter hw)
        · exact List.Pairwise.sublist (List.filter_sublist ws) huniq

/-- Witness for C4 at `u = 1`, `today = 0` on the empty collection, marking and
unmarking day 0. -/
theorem mutators_preserve_invariant_witness :
    (AllDone (mark_workout 1 0 0 []).2 ∧ UniquePairs (mark_workout 1 0 0 []).2) ∧
    (AllDone (unmark_workout 1 (some 0) 0 []).2 ∧ UniquePairs (unmark_workout 1 (some 0) 0 []).2) :=
  ⟨(mutators_preserve_invariant 1 0 [] (by simp [AllDone]) (by simp [UniquePairs])).1 0,
   (mutators_preserve_invariant 1 0 [] (by simp [AllDone]) (by simp [UniquePairs])).2 (some 0)⟩

/-- C10: frame property of the mutators.  The mark handler never touches the
users collection and, when it succeeds, changes the workout collection only by
appending the single record `{user_id := u, date := d, workout_done := true}`;
the unmark handler never touches the users collection and its resulting workout
collection is exactly the input minus the records matching `(u, d)`: a record
survives if and only if it was stored and does not match. -/
theorem mutators_frame (u : Nat) (d today : Int) (s : Store) :
    ((markStore u d today s).2.users = s.users) ∧
    (¬ today < d → alreadyMarked u d s.workouts = false →
      (markStore u d today s).2.workouts =
        s.workouts ++ [{ user_id := u, date := d, workout_done := true }]) ∧
    ((unmarkStore u (some d) today s).2.users = s.users) ∧
    ((unmarkStore u (some d) today s).2.workouts = removeWorkout u d s.workouts) ∧
    (∀ w, w ∈ (unmarkStore u (some d) today s).2.workouts ↔
      (w ∈ s.workouts ∧ ¬(w.user_id = u ∧ w.date = d))) := by
  have hrm : ∀ w, w ∈ removeWorkout u d s.workouts ↔
      (w ∈ s.workouts ∧ ¬(w.user_id = u ∧ w.date = d)) := by
    intro w
    rw [removeWorkout, List.mem_filter]
    simp only [Bool.not_eq_eq_eq_not, Bool.not_true, Bool.and_eq_false_iff,
      decide_eq_false_iff_not]
    tauto
  have hwork : (unmarkStore u (some d) today s).2.workouts = removeWorkout u d s.workouts := by
    simp only [unmarkStore, unmark_workout]
    split_ifs with h
    · exact ((List.filter_sublist s.workouts).eq_of_length h).symm
    · rfl
  refine ⟨rfl, ?_, rfl, hwork, fun w => by rw [hwork]; exact hrm w⟩
  intro h1 h2
  simp [markStore, mark_workout, h1, h2]

/-- Witness for C10 at `u = 1`, `d = 0`, `today = 0` on the empty store. -/
theorem mutators_frame_witness :
    ((markStore 1 0 0 { users := [], workouts := [] }).2.users = []) ∧
    ((markStore 1 0 0 { users := [], workouts := [] }).2.workouts =
      [] ++ [{ user_id := 1, date := 0, workout_done := true }]) ∧
    ((unmarkStore 1 (some 0) 0 { users := [], workouts := [] }).2.users = []) ∧
    ((unmarkStore 1 (some 0) 0 { users := [], workouts := [] }).2.workouts =
      removeWorkout 1 0 []) :=
  have h := mutators_frame 1 0 0 { users := [], workouts := [] }
  ⟨h.1, h.2.1 (by decide) (by decide), h.2.2.1, h.2.2.2.1⟩

/-- C8 counterexample, at two explicit inputs.  With the name already taken and
a malformed PIN, the source fails with the name-conflict error, not the
PIN-validation error the claim demands there (the conflict check at line 155
runs before the PIN check at line 159).  And with the name free, the
4-character pin "²²²²" of Unicode superscript-two digits — which is not "4
ASCII digits" — passes CPython's `str.isdigit`, so registration succeeds and
appends the user where the claim demands a Validation failure. -/
theorem register_claim_refuted :
    ((register ("alice") ("12") 0
      [{ user_id := 1, name := ("alice"), pin := ("1234"), created_at := 0 }]).1 =
      RegisterOutcome.error ("User already exists")) ∧
    ((register ("bob") ("²²²²") 0 []).1 = RegisterOutcome.ok ("bob")) := by
  refine ⟨by decide, by decide⟩

/-- C8 (amended): `register` fails with the conflict error whenever the name is
taken, regardless of the pin; with the name free it fails with the
PIN-validation error when the pin length is not 4, and when some character of
the pin is an ASCII non-digit; and with the name free and the pin exactly 4
digit characters — Unicode digits included, not only ASCII — it appends
exactly one new user carrying that name and pin.  (For pins made of digit
characters outside the modelled table of `pyDigitChar` the theorem asserts
nothing.) -/
theorem register_behaviour (users : List User) (name pin : String) (now : Nat) :
    ((users.any fun u => decide (u.name = name)) = true →
      register name pin now users = (RegisterOutcome.error ("User already exists"), users)) ∧
    ((users.any fun u => decide (u.name = name)) = false →
      pin.length ≠ 4 →
      register name pin now users = (RegisterOutcome.error ("PIN must be exactly 4 digits"), users)) ∧
    ((users.any fun u => decide (u.name = name)) = false →
      (∃ c ∈ pin.toList, c.toNat < 128 ∧ pyDigitChar c = false) →
      register name pin now users = (RegisterOutcome.error ("PIN must be exactly 4 digits"), users)) ∧
    ((users.any fun u => decide (u.name = name)) = false →
      pin.length = 4 → isdigit pin = true →
      register name pin now users =
        (RegisterOutcome.ok name,
         users ++ [{ user_id := nextUserId users, name := name, pin := pin, created_at := now }])) := by
  refine ⟨fun h => ?_, fun h h4 => ?_, fun h hbad => ?_, fun h h4 hdig => ?_⟩
  · unfold register
    rw [if_pos h]
  · have hnc : ¬ ((users.any fun u => decide (u.name = name)) = true) := by simp [h]
    unfold register
    rw [if_neg hnc, if_pos (Or.inl h4)]
  · have hnc : ¬ ((users.any fun u => decide (u.name = name)) = true) := by simp [h]
    have hdig : isdigit pin = false := by
      obtain ⟨c, hcmem, _, hcf⟩ := hbad
      have hall : pin.toList.all pyDigitChar = false := by
        rw [Bool.eq_false_iff]
        intro hallt
        rw [List.all_eq_true] at hallt
        rw [hallt c hcmem] at hcf
        simp at hcf
      rw [isdigit, hall, Bool.and_false]
    unfold register
    rw [if_neg hnc, if_pos (Or.inr hdig)]
  · have hnc : ¬ ((users.any fun u => decide (u.name = name)) = true) := by simp [h]
    have hok : ¬ (pin.length ≠ 4 ∨ isdigit pin = false) := by simp [h4, hdig]
    unfold register
    rw [if_neg hnc, if_neg hok]

/-- Witness for C8's amended theorem: a taken name conflicts; a free name with
a 3-character pin fails on length; a free name with pin "12a4" fails on the
ASCII non-digit; free names with pin "1234" and with the Unicode-digit pin
"²²²²" are both appended. -/
theorem register_behaviour_witness :
    (register ("alice") ("1234") 0
        [{ user_id := 1, name := ("alice"), pin := ("1234"), created_at := 0 }] =
      (RegisterOutcome.error ("User already exists"),
       [{ user_id := 1, name := ("alice"), pin := ("1234"), created_at := 0 }])) ∧
    (register ("bob") ("123") 0 [] =
      (RegisterOutcome.error ("PIN must be exactly 4 digits"), [])) ∧
    (register ("bob") ("12a4") 0 [] =
      (RegisterOutcome.error ("PIN must be exactly 4 digits"), [])) ∧
    (register ("bob") ("1234") 0 [] =
      (RegisterOutcome.ok ("bob"),
       [] ++ [{ user_id := nextUserId [], name := ("bob"), pin := ("1234"), created_at := 0 }])) ∧
    (register ("bob") ("²²²²") 0 [] =
      (RegisterOutcome.ok ("bob"),
       [] ++ [{ user_id := nextUserId [], name := ("bob"), pin := ("²²²²"), created_at := 0 }])) :=
  ⟨(register_behaviour [{ user_id := 1, name := ("alice"), pin := ("1234"), created_at := 0 }]
      ("alice") ("1234") 0).1 (by decide),
   (register_behaviour [] ("bob") ("123") 0).2.1 (by decide) (by decide),
   (register_behaviour [] ("bob") ("12a4") 0).2.2.1 (by decide) (by decide),
   (register_behaviour [] ("bob") ("1234") 0).2.2.2 (by decide) (by decide) (by decide),
   (register_behaviour [] ("bob") ("²²²²") 0).2.2.2 (by decide) (by decide) (by decide)⟩

/-- C9: silent storage recovery.  Both readers are total functions of the
backing-file state — they cannot raise — and they return the empty sequence on
a missing, empty or unparsable file, the parsed records otherwise. -/
theorem read_silent_recovery :
    (read_users FileState.missing = [] ∧ read_users FileState.empty = [] ∧
      read_users FileState.malformed = [] ∧
      ∀ l, read_users (FileState.wellFormed l) = l) ∧
    (read_workouts FileState.missing = [] ∧ read_workouts FileState.empty = [] ∧
      read_workouts FileState.malformed = [] ∧
      ∀ l, read_workouts (FileState.wellFormed l) = l) :=
  ⟨⟨rfl, rfl, rfl, fun _ => rfl⟩, ⟨rfl, rfl, rfl, fun _ => rfl⟩⟩

/-- Ranking keeps each row's response fields, in order. -/
theorem addRanks_data (l : List LeaderboardRow) :
    ∀ i, (addRanks i l).map entryData = l.map rowData := by
  induction l with
  | nil => intro i; rfl
  | cons r rest ih => intro i; simp [addRanks, entryData, rowData, ih]

/-- Ranking does not change the number of entries. -/
theorem addRanks_length (l : List LeaderboardRow) :
    ∀ i, (addRanks i l).length = l.length := by
  induction l with
  | nil => intro i; rfl
  | cons r rest ih => intro i; simp [addRanks, ih]

/-- The ranks assigned by the enumeration pass are consecutive from its start
index. -/
theorem addRanks_ranks (l : List LeaderboardRow) :
    ∀ i, (addRanks i l).map LeaderboardEntry.rank = List.range' i l.length := by
  induction l with
  | nil => intro i; rfl
  | cons r rest ih => intro i; simp [addRanks, List.range', ih]

/-- Every ranked entry carries the response fields of some row of the input. -/
theorem mem_addRanks (l : List LeaderboardRow) :
    ∀ i e, e ∈ addRanks i l → ∃ r ∈ l, entryData e = rowData r := by
  induction l with
  | nil => intro i e h; exact absurd h (List.not_mem_nil e)
  | cons r rest ih =>
    intro i e h
    simp only [addRanks] at h
    rcases List.mem_cons.1 h with h | h
    · exact ⟨r, List.mem_cons_self r rest, by rw [h]; rfl⟩
    · obtain ⟨r2, hr2, hdata⟩ := ih (i + 1) e h
      exact ⟨r2, List.mem_cons_of_mem r hr2, hdata⟩

/-- Every row built by the leaderboard loop passed its inclusion test. -/
theorem rows_positive (cu : Nat) (users : List User) (ws : List Workout) (today : Int) :
    ∀ r ∈ leaderboardRows cu users ws today,
      0 < r.current_streak ∨ 0 < r.total_workout_days := by
  intro r hr
  simp only [leaderboardRows, List.mem_filterMap] at hr
  obtain ⟨user, hu, heq⟩ := hr
  split_ifs at heq with h
  simp only [Option.some.injEq] at heq
  rw [← heq]
  simpa using h

/-- Ranking a row list that is sorted for `rowGe` yields an entry list that is
pairwise sorted for the same `(streak, total)` key comparison. -/
theorem pairwise_addRanks (l : List LeaderboardRow) :
    ∀ i, l.Pairwise rowGe →
      (addRanks i l).Pairwise fun a b => keyGe (entryKey a) (entryKey b) := by
  induction l with
  | nil => intro i h; exact List.Pairwise.nil
  | cons r rest ih =>
    intro i h
    rw [List.pairwise_cons] at h
    simp only [addRanks]
    rw [List.pairwise_cons]
    refine ⟨?_, ih (i + 1) h.2⟩
    intro e he
    obtain ⟨r2, hr2, hdata⟩ := mem_addRanks rest (i + 1) e he
    have hge := h.1 r2 hr2
    have h1 : e.current_streak = r2.current_streak := congrArg (fun p => p.2.1) hdata
    have h2 : e.total_workout_days = r2.total_workout_days := congrArg (fun p => p.2.2.1) hdata
    simp only [entryKey, keyGe, rowGe, rowKey] at *
    omega

/-- C7: leaderboard correctness.  (1) A row is built exactly for the users
whose recomputed streak or total is positive, carrying those stats; (2) the
final entries are, apart from their ranks, a permutation of those rows; (3)
every final entry has a positive streak or total (so a user with streak 0 and
total 0, like C in the spec's example, is excluded); (4) the final entries are
sorted by `(streak desc, total desc)`; (5) ranks are exactly `1..N` by final
position, hence strictly increasing and pairwise distinct; (6) the ranking
stage on rows with the example stats A(5,5), B(5,3) yields A at rank 1 and B at
rank 2 (stats `streak = 5, total = 3` cannot arise from any record collection —
see `calculate_streak_le_total` — so the example is checked at the row stage);
(7) a user with no records is excluded end to end. -/
theorem get_leaderboard_correct :
    (∀ cu users ws today r,
      r ∈ leaderboardRows cu users ws today ↔
        ∃ user ∈ users,
          (0 < calculate_streak user.user_id ws today ∨ 0 < total_days user.user_id ws) ∧
          r = { user_id := user.user_id
                name := user.name
                current_streak := calculate_streak user.user_id ws today
                total_workout_days := total_days user.user_id ws
                is_current_user := decide (user.user_id = cu) }) ∧
    (∀ cu users ws today,
      ((get_leaderboard cu users ws today).map entryData).Perm
        ((leaderboardRows cu users ws today).map rowData)) ∧
    (∀ cu users ws today e, e ∈ get_leaderboard cu users ws today →
      0 < e.current_streak ∨ 0 < e.total_workout_days) ∧
    (∀ cu users ws today,
      (get_leaderboard cu users ws today).Pairwise fun a b => keyGe (entryKey a) (entryKey b)) ∧
    (∀ cu users ws today,
      (get_leaderboard cu users ws today).map LeaderboardEntry.rank =
        List.range' 1 (get_leaderboard cu users ws today).length) ∧
    (addRanks 1 (List.insertionSort rowGe
        [{ user_id := 1, name := "A", current_streak := 5, total_workout_days := 5,
           is_current_user := false },
         { user_id := 2, name := "B", current_streak := 5, total_workout_days := 3,
           is_current_user := false }]) =
      [{ rank := 1, name := "A", current_streak := 5, total_workout_days := 5,
         is_current_user := false },
       { rank := 2, name := "B", current_streak := 5, total_workout_days := 3,
         is_current_user := false }]) ∧
    (get_leaderboard 3 [{ user_id := 3, name := "C", pin := "0000", created_at := 0 }] [] 0 = []) := by
  refine ⟨?_, ?_, ?_, ?_, ?_, by decide, by decide⟩
  · intro cu users ws today r
    simp only [leaderboardRows, List.mem_filterMap]
    constructor
    · rintro ⟨user, hu, heq⟩
      split_ifs at heq with h
      simp only [Option.some.injEq] at heq
      exact ⟨user, hu, h, heq.symm⟩
    · rintro ⟨user, hu, h, rfl⟩
      exact ⟨user, hu, by rw [if_pos h]⟩
  · intro cu users ws today
    rw [get_leaderboard, addRanks_data]
    exact (List.perm_insertionSort rowGe (leaderboardRows cu users ws today)).map rowData
  · intro cu users ws today e he
    rw [get_leaderboard] at he
    obtain ⟨r, hr, hdata⟩ := mem_addRanks _ 1 e he
    have hr2 : r ∈ leaderboardRows cu users ws today :=
      (List.perm_insertionSort rowGe (leaderboardRows cu users ws today)).mem_iff.1 hr
    have hp := rows_positive cu users ws today r hr2
    have h1 : e.current_streak = r.current_streak := congrArg (fun p => p.2.1) hdata
    have h2 : e.total_workout_days = r.total_workout_days := congrArg (fun p => p.2.2.1) hdata
    omega
  · intro cu users ws today
    exact pairwise_addRanks _ 1
      (List.sorted_insertionSort rowGe (leaderboardRows cu users ws today))
  · intro cu users ws today
    rw [get_leaderboard, addRanks_length, addRanks_ranks]

/-- Witness for C7 on a one-user, one-record input: the single produced entry
has a positive streak or total. -/
theorem get_leaderboard_correct_witness :
    0 < ({ rank := 1, name := "A", current_streak := 1, total_workout_days := 1,
           is_current_user := true } : LeaderboardEntry).current_streak ∨
    0 < ({ rank := 1, name := "A", current_streak := 1, total_workout_days := 1,
           is_current_user := true } : LeaderboardEntry).total_workout_days :=
  get_leaderboard_correct.2.2.1 1
    [{ user_id := 1, name := "A", pin := "1111", created_at := 0 }]
    [{ user_id := 1, date := 0, workout_done := true }] 0
    { rank := 1, name := "A", current_streak := 1, total_workout_days := 1,
      is_current_user := true }
    (by decide)

end WorkoutApp
